import Mathlib

/-!
Verification of the ModemZTE SMS ingestion engine specification against the
repository's Python source. Each Python function used by a claim is embedded
as an executable Lean definition; file and line references point into the
repository. Python strings are modelled as Lean `String` where the values
involved are valid Unicode scalar sequences, and as `List Nat` of code points
where Python-level lone surrogates can arise (UTF-16 decoding). Nondeterminism
from `datetime.now()` is made explicit by a `now : String` parameter, and the
serial line by explicit response lists / arrival schedules.
-/

namespace ModemZTE

/-! ## Python string helpers -/

/-- Code points that Python's `str.strip()` removes (the `str.isspace` set). -/
def isPySpaceCp (c : Nat) : Bool :=
  decide (c = 32 ∨ (9 ≤ c ∧ c ≤ 13) ∨ (28 ≤ c ∧ c ≤ 31) ∨ c = 133 ∨ c = 160 ∨
    c = 5760 ∨ (8192 ≤ c ∧ c ≤ 8202) ∨ c = 8232 ∨ c = 8233 ∨ c = 8239 ∨
    c = 8287 ∨ c = 12288)

/-- `str.strip()` on a list of code points. -/
def pyStripN (l : List Nat) : List Nat :=
  ((l.dropWhile isPySpaceCp).reverse.dropWhile isPySpaceCp).reverse

/-- `str.strip()` on a Lean `String` (valid-scalar Python strings). -/
def pyStrip (s : String) : String :=
  ⟨(((s.toList.dropWhile fun c => isPySpaceCp c.toNat).reverse.dropWhile
      fun c => isPySpaceCp c.toNat).reverse)⟩

/-- Python's `pat in s` substring test. -/
def strContains (s pat : String) : Bool :=
  decide (pat.toList <:+: s.toList)

/-- Python `s.split(sep)` for a one-character separator (given by code point),
on the character list of the string: splits at every occurrence, keeping
empty pieces; `"".split(sep)` is `[""]`. -/
def pySplitChar (sep : Nat) : List Char → List (List Char)
  | [] => [[]]
  | c :: rest =>
    let r := pySplitChar sep rest
    if c.toNat = sep then [] :: r
    else
      match r with
      | g :: gs => (c :: g) :: gs
      | [] => [[c]]

/-- Python `s.split(sep)` for a one-character separator. -/
def pySplit (s : String) (sep : Nat) : List String :=
  (pySplitChar sep s.toList).map fun l => ⟨l⟩

/-- Python `int(s)` on a decimal string: optional surrounding whitespace,
optional sign, then a nonempty digit run (digit-grouping underscores are not
modelled; no input in this development contains them). -/
def pyInt (s : String) : Option Int :=
  let cs := pyStrip s |>.toList
  let signed : Bool × List Char :=
    match cs with
    | c :: rest => if c.toNat = 45 then (true, rest)
                   else if c.toNat = 43 then (false, rest) else (false, cs)
    | [] => (false, [])
  match signed with
  | (neg, digits) =>
    if digits = [] ∨ ¬ digits.all Char.isDigit then none
    else
      let v : Nat := digits.foldl (fun acc c => acc * 10 + (c.toNat - 48)) 0
      some (if neg then -(v : Int) else (v : Int))

/-- Decimal digit characters of a natural number, most significant first
(fuel-based so it reduces in the kernel). -/
def natToDigitsGo : Nat → Nat → List Char → List Char
  | 0, _, acc => acc
  | _ + 1, 0, acc => acc
  | fuel + 1, n, acc => natToDigitsGo fuel (n / 10) (Char.ofNat (48 + n % 10) :: acc)

/-- Decimal rendering of a natural number. -/
def natToDigits (n : Nat) : List Char :=
  if n = 0 then [Char.ofNat 48] else natToDigitsGo n n []

/-- Python `f"{n:0wd}"`: zero-pad to width `w`; for negatives the sign
occupies one column of the width. -/
def fmtInt (w : Nat) (n : Int) : String :=
  if n ≥ 0 then
    let ds := natToDigits n.toNat
    ⟨List.replicate (w - ds.length) (Char.ofNat 48) ++ ds⟩
  else
    let ds := natToDigits (-n).toNat
    ⟨Char.ofNat 45 :: (List.replicate (w - 1 - ds.length) (Char.ofNat 48) ++ ds)⟩

/-! ## Durable store — `src/src/utils/db.py`

The `sms` table (`init_db`, db.py:47-56) has columns
`(id, sender, received_date, content, is_sent_to_telegram, verified_by,
deleted_from_sim)` and *no* uniqueness constraint on any column. A database
is modelled as the list of inserted rows in insertion order. -/

structure SmsRow where
  sender : String
  received_date : Option String
  content : String
deriving DecidableEq, Repr

abbrev Db := List SmsRow

/-- `parse_modem_date` (db.py:8-26). Empty input and any exception inside the
comma branch yield the current time (`now`); a comma-separated
`YY/MM/DD,HH:MM:SS±TZ` string is reformatted; any other input falls off the
end of the function body, which in Python returns `None`. -/
def parse_modem_date (now date_str : String) : Option String :=
  if date_str = "" then some now
  else if (pySplit date_str 44).length > 1 then
    match pySplit date_str 44 with
    | [date_part, time_part] =>
      let time_part := (pySplit ((pySplit time_part 43).headD "") 45).headD ""
      match pySplit date_part 47 with
      | [ys, ms, ds] =>
        match pyInt ys, pyInt ms, pyInt ds with
        | some y, some m, some d =>
          match pySplit time_part 58 with
          | [hs, mins, ss] =>
            match pyInt hs, pyInt mins, pyInt ss with
            | some h, some mi, some s =>
              some (fmtInt 4 (2000 + y) ++ "-" ++ fmtInt 2 m ++ "-" ++ fmtInt 2 d
                ++ " " ++ fmtInt 2 h ++ ":" ++ fmtInt 2 mi ++ ":" ++ fmtInt 2 s)
            | _, _, _ => some now
          | _ => some now
        | _, _, _ => some now
      | _ => some now
    | _ => some now
  else none

/-- `message_exists` (db.py:85-100): `SELECT id FROM sms WHERE sender = ? AND
content = ?` is non-empty. -/
def message_exists (db : Db) (sender content : String) : Bool :=
  db.any fun r => r.sender == sender && r.content == content

/-- Number of stored rows for one (sender, content) pair. -/
def countPair (db : Db) (sender content : String) : Nat :=
  (db.filter fun r => r.sender == sender && r.content == content).length

/-- `save_sms(status, sender, timestamp, content)` (db.py:102-130): parses the
timestamp, then unconditionally `INSERT INTO sms (sender, received_date,
content, is_sent_to_telegram) VALUES (?, ?, ?, 1)` and returns `lastrowid`.
The `status` argument is accepted but never used. There is no duplicate check
and no uniqueness constraint, so the insert always succeeds. -/
def save_sms (now : String) (db : Db) (status sender timestamp content : String) :
    Option Nat × Db :=
  let _ := status
  let row : SmsRow := ⟨sender, parse_modem_date now timestamp, content⟩
  (some (db.length + 1), db ++ [row])

/-- Result of one store attempt, for the idempotence claim. -/
inductive StoreResult
  | created (id : Nat)
  | duplicate
deriving DecidableEq, Repr

/-- The caller-side check-then-insert sequence: `message_exists` followed by
`save_sms` only when absent, exactly as in `process_and_delete_message`
(sms_manager.py:37-49) on its `force_save = False` path, with `save_sms`
invoked with its four declared parameters. This is the only composition in
the repository under which a store can report a duplicate. -/
def store_if_new (now : String) (db : Db) (status sender timestamp content : String) :
    StoreResult × Db :=
  if message_exists db sender content then (.duplicate, db)
  else
    match save_sms now db status sender timestamp content with
    | (some id, db2) => (.created id, db2)
    | (none, db2) => (.duplicate, db2)

theorem message_exists_iff_countPair (db : Db) (sender content : String) :
    message_exists db sender content = true ↔ 0 < countPair db sender content := by
  induction db with
  | nil => simp [message_exists, countPair]
  | cons r rest ih =>
    simp only [message_exists, List.any_cons, countPair, List.filter_cons] at *
    cases h1 : (r.sender == sender && r.content == content) with
    | true => simp [h1]
    | false => simp [h1, ih]

theorem countPair_append_match (db : Db) (r : SmsRow)
    (h1 : r.sender = sender) (h2 : r.content = content) :
    countPair (db ++ [r]) sender content = countPair db sender content + 1 := by
  simp [countPair, List.filter_append, h1, h2]

/-- **C1, counterexample.** Two identical direct stores: the second call
inserts a *second* record for the pair and reports a fresh row id, not a
duplicate. -/
theorem save_sms_repeat_inserts_second_record :
    countPair (save_sms "NOW" ((save_sms "NOW" [] "REC UNREAD" "+213555" "t" "hello").2)
        "REC UNREAD" "+213555" "t" "hello").2 "+213555" "hello" = 2 ∧
    (save_sms "NOW" ((save_sms "NOW" [] "REC UNREAD" "+213555" "t" "hello").2)
        "REC UNREAD" "+213555" "t" "hello").1 = some 2 := by
  constructor <;> rfl

/-- **C1, amended.** `save_sms` itself inserts unconditionally; at-most-once
persistence holds only for the guarded check-then-insert sequence
`store_if_new`: from a store with no record for the pair, the first call
creates exactly one record, and every later attempt (any `now`/`status`/
`timestamp`) on a store holding exactly one record for the pair reports a
duplicate and leaves that store unchanged. -/
theorem store_if_new_persists_at_most_once
    (now status timestamp sender content : String) (db : Db)
    (h0 : countPair db sender content = 0) :
    (∃ id, (store_if_new now db status sender timestamp content).1 = .created id) ∧
    countPair (store_if_new now db status sender timestamp content).2 sender content = 1 ∧
    (∀ (now2 status2 timestamp2 : String) (db2 : Db),
      countPair db2 sender content = 1 →
      store_if_new now2 db2 status2 sender timestamp2 content = (.duplicate, db2)) := by
  have hex : message_exists db sender content = false := by
    cases h : message_exists db sender content with
    | false => rfl
    | true =>
      exact absurd ((message_exists_iff_countPair db sender content).mp h) (by omega)
  refine ⟨⟨db.length + 1, ?_⟩, ?_, ?_⟩
  · simp [store_if_new, hex, save_sms]
  · simp [store_if_new, hex, save_sms]
    rw [countPair_append_match db _ rfl rfl, h0]
  · intro now2 status2 timestamp2 db2 h1
    have hex2 : message_exists db2 sender content = true :=
      (message_exists_iff_countPair db2 sender content).mpr (by omega)
    simp [store_if_new, hex2]

theorem store_if_new_persists_at_most_once_witness :
    countPair ([] : Db) "+213555" "hello" = 0 ∧
    ((∃ id, (store_if_new "N" [] "S" "+213555" "t" "hello").1 = .created id) ∧
     countPair (store_if_new "N" [] "S" "+213555" "t" "hello").2 "+213555" "hello" = 1 ∧
     (∀ (now2 status2 timestamp2 : String) (db2 : Db),
       countPair db2 "+213555" "hello" = 1 →
       store_if_new now2 db2 status2 "+213555" timestamp2 "hello" = (.duplicate, db2))) :=
  ⟨by decide, store_if_new_persists_at_most_once "N" "S" "t" "+213555" "hello" [] (by decide)⟩

/-- **C10.** Every non-empty timestamp string without a comma (in particular
any `YYYY-MM-DD HH:MM:SS` string) makes `parse_modem_date` return `None`, so
the row `save_sms` inserts for it carries a NULL `received_date`. -/
theorem parse_modem_date_none_without_comma (now s : String)
    (h1 : s ≠ "") (h2 : (pySplit s 44).length ≤ 1) :
    parse_modem_date now s = none ∧
    (∀ (db : Db) (status sender content : String),
      (save_sms now db status sender s content).2 =
        db ++ [⟨sender, none, content⟩]) := by
  have hp : parse_modem_date now s = none := by
    have h3 : ¬ ((pySplit s 44).length > 1) := by omega
    simp [parse_modem_date, h1, h3]
  exact ⟨hp, fun db status sender content => by simp [save_sms, hp]⟩

theorem parse_modem_date_none_without_comma_witness :
    parse_modem_date "NOW" "2033-01-21 16:00:00" = none ∧
    (∀ (db : Db) (status sender content : String),
      (save_sms "NOW" db status sender "2033-01-21 16:00:00" content).2 =
        db ++ [⟨sender, none, content⟩]) :=
  parse_modem_date_none_without_comma "NOW" "2033-01-21 16:00:00"
    (by decide) (by decide)

/-! ## PDU timestamp decoding — `src/src/sms/modem.py:163-183` -/

/-- Value of a hexadecimal digit character (by code point), if it is one. -/
def hexValCp? (c : Nat) : Option Nat :=
  if 48 ≤ c ∧ c ≤ 57 then some (c - 48)
  else if 65 ≤ c ∧ c ≤ 70 then some (c - 55)
  else if 97 ≤ c ∧ c ≤ 102 then some (c - 87)
  else none

/-- Python `int(a + b, 16)` on two characters: `a` is the high nibble. Fails
(raising `ValueError`, mapped to `none`) unless both are hex digits. -/
def hexPairVal (hi lo : Char) : Option Nat :=
  match hexValCp? hi.toNat, hexValCp? lo.toNat with
  | some h, some l => some (h * 16 + l)
  | _, _ => none

/-- `decode_pdu_timestamp` (modem.py:163-183). Inputs shorter than 14
characters, non-hex pairs (the `except` clause) and out-of-range components
all return the current time `now`. Each component is
`int(timestamp_hex[i+1] + timestamp_hex[i], 16)` — the nibble-swapped pair
read in base 16 — and the year is that value plus 2000. -/
def decode_pdu_timestamp (now ts : String) : String :=
  let cs := ts.toList
  if cs.length < 14 then now
  else
    match cs with
    | c0 :: c1 :: c2 :: c3 :: c4 :: c5 :: c6 :: c7 :: c8 :: c9 :: c10 :: c11 :: _ =>
      match hexPairVal c1 c0, hexPairVal c3 c2, hexPairVal c5 c4,
          hexPairVal c7 c6, hexPairVal c9 c8, hexPairVal c11 c10 with
      | some yy, some mo, some dd, some hh, some mi, some ss =>
        if 1 ≤ mo ∧ mo ≤ 12 ∧ 1 ≤ dd ∧ dd ≤ 31 ∧ hh ≤ 23 ∧ mi ≤ 59 ∧ ss ≤ 59 then
          fmtInt 4 (yy + 2000) ++ "-" ++ fmtInt 2 mo ++ "-" ++ fmtInt 2 dd ++ " "
            ++ fmtInt 2 hh ++ ":" ++ fmtInt 2 mi ++ ":" ++ fmtInt 2 ss
        else now
      | _, _, _, _, _, _ => now
    | _ => now

/-- **C4.** The semi-octet field `"12105101000000"` has nibble-swapped pairs
21 / 01 / 15 / 10 / 00 / 00, all in valid calendar ranges, so the claim
requires `"2021-01-15 10:00:00"`; the code reads each swapped pair in base 16
(`int(pair, 16)`) rather than as the decimal BCD value and returns
`"2033-01-21 16:00:00"` (0x21 = 33, 0x15 = 21, 0x10 = 16). -/
theorem decode_pdu_timestamp_reads_hex_not_decimal :
    decode_pdu_timestamp "NOW" "12105101000000" = "2033-01-21 16:00:00" ∧
    "2033-01-21 16:00:00" ≠ "2021-01-15 10:00:00" := by
  refine ⟨rfl, by decide⟩

/-! ## Fragment reassembly — `src/src/sms/modem.py:1418-1436`

`detect_concatenated_message` is the only reassembly hook invoked by the
ingestion pipeline (modem.py:1015); `check_and_combine_multipart_message`
(modem.py:1240-1293) is never called. -/

/-- `detect_concatenated_message` (modem.py:1418-1436): the body
unconditionally returns `(False, content, None)` — every message is reported
as not concatenated and passed through unchanged (the `except` arm returns
the same value). -/
def detect_concatenated_message (sender content timestamp : String) :
    Bool × String × Option Nat :=
  let _ := sender
  let _ := timestamp
  (false, content, none)

/-- **C3, counterexample.** Three parts sharing one sender, delivered as
1/3, 3/3, 2/3: each observe call reports not-concatenated and returns the
single part unchanged; no call ever emits the in-order concatenation
`"PART-ONE PART-TWO PART-THREE"`, so no `Complete` result equal to it is
produced. -/
theorem reassembler_never_combines_parts :
    detect_concatenated_message "+213555000111" "PART-ONE " "t1" =
      (false, "PART-ONE ", none) ∧
    detect_concatenated_message "+213555000111" "PART-THREE" "t2" =
      (false, "PART-THREE", none) ∧
    detect_concatenated_message "+213555000111" "PART-TWO " "t3" =
      (false, "PART-TWO ", none) ∧
    "PART-ONE " ≠ "PART-ONE PART-TWO PART-THREE" ∧
    "PART-THREE" ≠ "PART-ONE PART-TWO PART-THREE" ∧
    "PART-TWO " ≠ "PART-ONE PART-TWO PART-THREE" := by
  refine ⟨rfl, rfl, rfl, by decide, by decide, by decide⟩

/-- **C3, amended.** The pipeline's reassembler performs no reassembly at
all: for every sender, content and timestamp, `detect_concatenated_message`
returns `(False, content, None)`, so each part — whatever its reference,
part number or total — is handed on immediately as a standalone message and
no combined `Complete` result is ever emitted. -/
theorem detect_concatenated_message_is_identity
    (sender content timestamp : String) :
    detect_concatenated_message sender content timestamp =
      (false, content, none) := rfl

/-! ## Content decode cascade — `src/src/sms/modem.py:669-714`

`decode_message_content` receives a Python `str`; its UCS2 branch builds the
result with `chr(int(groupOf4, 16))`, which can produce lone surrogate code
points, so strings on this path are modelled as lists of code points
(`List Nat`), exactly Python's `str` value model. -/

/-- Membership in Python's literal `'0123456789ABCDEFabcdef'` check
(modem.py:675). -/
def isHexCp (c : Nat) : Bool :=
  (hexValCp? c).isSome

/-- Hex digit value, defined on hex digit characters (callers guard with
`isHexCp`). -/
def hexVal (c : Nat) : Nat :=
  (hexValCp? c).getD 0

/-- Uppercase hex digit character (code point) for a nibble. -/
def hexDigitCp (d : Nat) : Nat :=
  if d < 10 then 48 + d else 55 + d

/-- The four hex digit characters of a 16-bit value, most significant first:
how `bytes.hex()` renders the two big-endian bytes of a UTF-16 code unit
(case is irrelevant to the decoder, which accepts both). -/
def toHex4 (n : Nat) : List Nat :=
  [hexDigitCp (n / 4096 % 16), hexDigitCp (n / 256 % 16),
   hexDigitCp (n / 16 % 16), hexDigitCp (n % 16)]

/-- UTF-16 code units of one code point: identity below 0x10000, surrogate
pair above. -/
def utf16beUnits (cp : Nat) : List Nat :=
  if cp < 65536 then [cp]
  else [55296 + (cp - 65536) / 1024, 56320 + (cp - 65536) % 1024]

/-- `S.encode('utf-16be').hex()`: the hex string fed to the cascade in the
round-trip claim. -/
def encode_utf16be_hex (S : List Nat) : List Nat :=
  (S.flatMap utf16beUnits).flatMap toHex4

/-- `int(c3c2c1c0, 16)` on four hex characters. -/
def parse4 (a b c d : Nat) : Nat :=
  ((hexVal a * 16 + hexVal b) * 16 + hexVal c) * 16 + hexVal d

/-- The UCS2 loop of `decode_message_content` (modem.py:682-689): walk the
content four characters at a time, parse each group as a code unit, skip
null units, `chr` the rest. A trailing group shorter than four characters
(impossible under the `% 4 == 0` guard) is parsed as Python would parse the
short slice. -/
def ucs2DecodeGroups : List Nat → List Nat
  | a :: b :: c :: d :: rest =>
    let u := parse4 a b c d
    if u = 0 then ucs2DecodeGroups rest else u :: ucs2DecodeGroups rest
  | [] => []
  | [a] =>
    let u := hexVal a
    if u = 0 then [] else [u]
  | [a, b] =>
    let u := hexVal a * 16 + hexVal b
    if u = 0 then [] else [u]
  | [a, b, c] =>
    let u := (hexVal a * 16 + hexVal b) * 16 + hexVal c
    if u = 0 then [] else [u]

/-- `bytes.fromhex` on an all-hex, even-length string (callers guard both). -/
def hexPairsToBytes : List Nat → List Nat
  | a :: b :: rest => (hexVal a * 16 + hexVal b) :: hexPairsToBytes rest
  | _ => []

/-- Whether `b2` is a valid second byte after the three-byte lead `b`
(CPython rejects surrogates and overlong forms at this position). -/
def utf8Cont2Ok (b b2 : Nat) : Bool :=
  if b = 224 then decide (160 ≤ b2 ∧ b2 ≤ 191)
  else if b = 237 then decide (128 ≤ b2 ∧ b2 ≤ 159)
  else decide (128 ≤ b2 ∧ b2 ≤ 191)

/-- Whether `b2` is a valid second byte after the four-byte lead `b`. -/
def utf8Cont3Ok (b b2 : Nat) : Bool :=
  if b = 240 then decide (144 ≤ b2 ∧ b2 ≤ 191)
  else if b = 244 then decide (128 ≤ b2 ∧ b2 ≤ 143)
  else decide (128 ≤ b2 ∧ b2 ≤ 191)

/-- Fuel-based worker for `bytes.decode('utf-8', errors='ignore')`: decode
greedily, dropping invalid or truncated sequences. The fuel is the input
length, consumed at least one byte per step, so it never runs out. -/
def utf8DecodeIgnoreGo : Nat → List Nat → List Nat
  | 0, _ => []
  | _ + 1, [] => []
  | fuel + 1, b :: rest =>
    if b < 128 then b :: utf8DecodeIgnoreGo fuel rest
    else if 194 ≤ b ∧ b ≤ 223 then
      match rest with
      | b2 :: rest2 =>
        if 128 ≤ b2 ∧ b2 ≤ 191 then
          ((b - 192) * 64 + (b2 - 128)) :: utf8DecodeIgnoreGo fuel rest2
        else utf8DecodeIgnoreGo fuel rest
      | [] => []
    else if 224 ≤ b ∧ b ≤ 239 then
      match rest with
      | b2 :: b3 :: rest3 =>
        if utf8Cont2Ok b b2 ∧ 128 ≤ b3 ∧ b3 ≤ 191 then
          (((b - 224) * 64 + (b2 - 128)) * 64 + (b3 - 128))
            :: utf8DecodeIgnoreGo fuel rest3
        else utf8DecodeIgnoreGo fuel rest
      | _ => []
    else if 240 ≤ b ∧ b ≤ 244 then
      match rest with
      | b2 :: b3 :: b4 :: rest4 =>
        if utf8Cont3Ok b b2 ∧ 128 ≤ b3 ∧ b3 ≤ 191 ∧ 128 ≤ b4 ∧ b4 ≤ 191 then
          ((((b - 240) * 64 + (b2 - 128)) * 64 + (b3 - 128)) * 64 + (b4 - 128))
            :: utf8DecodeIgnoreGo fuel rest4
        else utf8DecodeIgnoreGo fuel rest
      | _ => []
    else utf8DecodeIgnoreGo fuel rest

/-- `bytes.decode('utf-8', errors='ignore')`. (No theorem in this development
depends on this branch; it exists so `decode_message_content` is whole.) -/
def utf8DecodeIgnore (l : List Nat) : List Nat :=
  utf8DecodeIgnoreGo l.length l

/-- `decode_message_content` (modem.py:669-714). Content with any non-hex
character is returned as plain text unchanged. Otherwise: when the length is
a multiple of four and the UCS2 group decode, stripped, is non-empty, that is
returned; otherwise when the length is even and the hex→UTF-8 decode,
stripped, is non-empty, that is returned (odd length makes `bytes.fromhex`
raise, caught and ignored); otherwise the original content. -/
def decode_message_content (content : List Nat) : List Nat :=
  if content.all isHexCp = false then content
  else if content.length % 4 = 0 ∧ pyStripN (ucs2DecodeGroups content) ≠ [] then
    pyStripN (ucs2DecodeGroups content)
  else if content.length % 2 = 0 ∧
      pyStripN (utf8DecodeIgnore (hexPairsToBytes content)) ≠ [] then
    pyStripN (utf8DecodeIgnore (hexPairsToBytes content))
  else content

theorem hexValCp?_hexDigitCp (d : Nat) (h : d < 16) :
    hexValCp? (hexDigitCp d) = some d := by
  interval_cases d <;> rfl

theorem hexVal_hexDigitCp (d : Nat) (h : d < 16) : hexVal (hexDigitCp d) = d := by
  rw [hexVal, hexValCp?_hexDigitCp d h, Option.getD_some]

theorem isHexCp_hexDigitCp (d : Nat) (h : d < 16) : isHexCp (hexDigitCp d) = true := by
  rw [isHexCp, hexValCp?_hexDigitCp d h, Option.isSome_some]

theorem parse4_toHex4 (u : Nat) (h : u < 65536) :
    parse4 (hexDigitCp (u / 4096 % 16)) (hexDigitCp (u / 256 % 16))
      (hexDigitCp (u / 16 % 16)) (hexDigitCp (u % 16)) = u := by
  rw [parse4, hexVal_hexDigitCp _ (Nat.mod_lt _ (by omega)),
    hexVal_hexDigitCp _ (Nat.mod_lt _ (by omega)),
    hexVal_hexDigitCp _ (Nat.mod_lt _ (by omega)),
    hexVal_hexDigitCp _ (Nat.mod_lt _ (by omega))]
  omega

theorem ucs2DecodeGroups_toHex4_cons (u : Nat) (h : u < 65536) (h0 : u ≠ 0)
    (rest : List Nat) :
    ucs2DecodeGroups (toHex4 u ++ rest) = u :: ucs2DecodeGroups rest := by
  simp only [toHex4, List.cons_append, List.nil_append, ucs2DecodeGroups]
  rw [parse4_toHex4 u h]
  simp [h0]

theorem flatMap_toHex4_allHex (l : List Nat) :
    (l.flatMap toHex4).all isHexCp = true := by
  induction l with
  | nil => rfl
  | cons a t ih =>
    rw [List.flatMap_cons, List.all_append, ih, Bool.and_true]
    simp only [toHex4, List.all_cons, List.all_nil, Bool.and_true]
    rw [isHexCp_hexDigitCp _ (Nat.mod_lt _ (by omega)),
      isHexCp_hexDigitCp _ (Nat.mod_lt _ (by omega)),
      isHexCp_hexDigitCp _ (Nat.mod_lt _ (by omega)),
      isHexCp_hexDigitCp _ (Nat.mod_lt _ (by omega))]
    rfl

theorem flatMap_toHex4_length (l : List Nat) :
    (l.flatMap toHex4).length = 4 * l.length := by
  induction l with
  | nil => rfl
  | cons a t ih =>
    rw [List.flatMap_cons, List.length_append, ih]
    simp only [toHex4, List.length_cons, List.length_nil, List.length_cons]
    omega

theorem flatMap_utf16beUnits_bmp (l : List Nat) (h : ∀ c ∈ l, c < 65536) :
    l.flatMap utf16beUnits = l := by
  induction l with
  | nil => rfl
  | cons a t ih =>
    rw [List.flatMap_cons, utf16beUnits, if_pos (h a (by simp)),
      ih fun c hc => h c (by simp [hc])]
    rfl

theorem ucs2DecodeGroups_flatMap_toHex4 (l : List Nat)
    (h : ∀ c ∈ l, 0 < c ∧ c < 65536) :
    ucs2DecodeGroups (l.flatMap toHex4) = l := by
  induction l with
  | nil => rfl
  | cons a t ih =>
    rw [List.flatMap_cons,
      ucs2DecodeGroups_toHex4_cons a (h a (by simp)).2
        (by have := (h a (by simp)).1; omega),
      ih fun c hc => h c (by simp [hc])]

theorem dropWhile_eq_self_of_head {p : Nat → Bool} (l : List Nat)
    (h : ∀ c, l.head? = some c → p c = false) : l.dropWhile p = l := by
  cases l with
  | nil => rfl
  | cons a t => simp [List.dropWhile_cons, h a rfl]

theorem pyStripN_eq_self (l : List Nat)
    (h1 : ∀ c, l.head? = some c → isPySpaceCp c = false)
    (h2 : ∀ c, l.getLast? = some c → isPySpaceCp c = false) :
    pyStripN l = l := by
  rw [pyStripN, dropWhile_eq_self_of_head l h1,
    dropWhile_eq_self_of_head l.reverse
      (fun c hc => h2 c (by rwa [List.head?_reverse] at hc)),
    List.reverse_reverse]

/-- **C5, counterexample.** `S = "😀"` (the single code point U+1F600): its
UTF-16BE hex encoding is `"D83DDE00"`, which the cascade accepts and decodes
as the two 2-byte code units 0xD83D and 0xDE00 — the surrogate halves — so it
returns the two-code-point sequence, not `S`; no normalization step of the
cascade merges them back. -/
theorem decode_cascade_splits_non_bmp :
    decode_message_content (encode_utf16be_hex [128512]) = [55357, 56832] ∧
    ([55357, 56832] : List Nat) ≠ [128512] := by
  exact ⟨by decide, by decide⟩

/-- **C5, amended.** For every non-empty string S all of whose code points
are non-null characters of the Basic Multilingual Plane, and whose first and
last code points are not whitespace, hex-encoding S as UTF-16BE and passing
it through the content decode cascade returns S unchanged (the cascade
accepts the hex because its length is a multiple of 4 and all characters are
hex digits, decodes 2-byte big-endian code units, and drops null code units).
Strings with characters outside the BMP come back as their surrogate halves
(see the counterexample); null code units are dropped and leading/trailing
whitespace is stripped by the cascade. -/
theorem decode_cascade_roundtrip_bmp (S : List Nat)
    (hne : S ≠ [])
    (hbmp : ∀ c ∈ S, 0 < c ∧ c < 65536)
    (hhead : (S.head?.all fun c => !isPySpaceCp c) = true)
    (hlast : (S.getLast?.all fun c => !isPySpaceCp c) = true) :
    decode_message_content (encode_utf16be_hex S) = S := by
  have hunits : S.flatMap utf16beUnits = S :=
    flatMap_utf16beUnits_bmp S fun c hc => (hbmp c hc).2
  have hE : encode_utf16be_hex S = S.flatMap toHex4 := by
    rw [encode_utf16be_hex, hunits]
  have hdec : ucs2DecodeGroups (S.flatMap toHex4) = S :=
    ucs2DecodeGroups_flatMap_toHex4 S hbmp
  have hstrip : pyStripN S = S := by
    refine pyStripN_eq_self S (fun c hc => ?_) (fun c hc => ?_)
    · rw [hc] at hhead; simpa using hhead
    · rw [hc] at hlast; simpa using hlast
  rw [hE, decode_message_content, flatMap_toHex4_allHex S]
  simp only [Bool.true_eq_false, if_false, flatMap_toHex4_length S, hdec, hstrip,
    Nat.mul_mod_right]
  simp [hne]

theorem decode_cascade_roundtrip_bmp_witness :
    decode_message_content (encode_utf16be_hex [72, 105]) = [72, 105] :=
  decode_cascade_roundtrip_bmp [72, 105] (by decide) (by decide)
    (by decide) (by decide)

/-! ## Command session — `src/src/sms/modem.py:441-453`

The serial line is modelled as a schedule of timed arrivals following the
write: chunk `(t, c)` becomes readable `t` time units after the command is
written, and the OS input buffer coalesces everything that has arrived and
not been read. -/

abbrev Arrival := Nat × String

/-- Bytes in the serial input buffer at time `t`: every chunk whose arrival
time is at most `t`, in arrival order. -/
def readAvailable (arrivals : List Arrival) (t : Nat) : String :=
  String.join ((arrivals.filter fun a => a.1 ≤ t).map Prod.snd)

/-- `send_at_command` (modem.py:441-453): resets the input buffer, writes
`command + "\r"`, calls `time.sleep(wait)` once, then performs a single
`ser.read(ser.in_waiting)` of whatever is available at that instant and
returns it stripped. The `command` argument only affects the bytes written,
never the value read; an exception is caught and `""` returned (nothing in
this pure model can throw). -/
def send_at_command (arrivals : List Arrival) (command : String) (wait : Nat) :
    String :=
  let _ := command
  pyStrip (readAvailable arrivals wait)

/-- Worker for the spec-side accumulate-until-terminator contract. -/
def sendAccumGo (maxWait : Nat) : List Arrival → String → String
  | [], acc => acc
  | (t, chunk) :: rest, acc =>
    if strContains acc "OK" || strContains acc "ERROR" then acc
    else if t ≤ maxWait then sendAccumGo maxWait rest (acc ++ chunk)
    else acc

/-- Modelled from the spec: the §4.1 Command Session contract — accumulate
successive partial reads in arrival order until the collected text contains a
recognized terminator (`OK`/`ERROR`) or the wait bound elapses, then return
the text collected so far. Used only as the comparison point for the claim. -/
def send_accumulate_until_terminator (arrivals : List Arrival) (maxWait : Nat) :
    String :=
  pyStrip (sendAccumGo maxWait arrivals "")

theorem join_append_singleton (l : List String) (s : String) :
    String.join (l ++ [s]) = String.join l ++ s := by
  rw [String.join, String.join, List.foldl_append]
  rfl

/-- **C6, counterexample.** With `OK` arriving at time 1 and a further chunk
`X` at time 2, both within a wait bound of 3: the claimed accumulate-until-
terminator behaviour stops at `OK` and returns `"OK"`, but `send_at_command`
never inspects the text for a terminator and returns `"OKX"`. -/
theorem send_at_command_ignores_terminator :
    send_at_command [(1, "OK"), (2, "X")] "AT" 3 = "OKX" ∧
    send_accumulate_until_terminator [(1, "OK"), (2, "X")] 3 = "OK" ∧
    ("OKX" : String) ≠ "OK" := by
  refine ⟨by decide, by decide, by decide⟩

/-- **C6, amended.** `send_at_command` writes the command plus line
terminator, sleeps once for the wait bound, then performs a single read: a
chunk arriving within the bound is appended to the returned text regardless
of any terminator already received, and a chunk arriving after the bound
never influences the result (it stays unread on the line); the returned
value is always the stripped best-effort text, and absence of `OK` causes no
exception. -/
theorem send_at_command_single_timed_read (arrivals : List Arrival)
    (command c : String) (t wait : Nat) :
    (t ≤ wait → send_at_command (arrivals ++ [(t, c)]) command wait =
      pyStrip (readAvailable arrivals wait ++ c)) ∧
    (wait < t → send_at_command (arrivals ++ [(t, c)]) command wait =
      send_at_command arrivals command wait) := by
  constructor
  · intro h
    simp [send_at_command, readAvailable, List.filter_append, h,
      join_append_singleton]
  · intro h
    have h2 : ¬ (t ≤ wait) := by omega
    simp [send_at_command, readAvailable, List.filter_append, h2]

theorem send_at_command_single_timed_read_witness :
    send_at_command [(1, "OK"), (2, "X")] "AT" 3 =
      pyStrip (readAvailable [(1, "OK")] 3 ++ "X") ∧
    send_at_command [(1, "OK"), (2, "X"), (9, "LATE")] "AT" 3 =
      send_at_command [(1, "OK"), (2, "X")] "AT" 3 :=
  ⟨(send_at_command_single_timed_read [(1, "OK")] "AT" "X" 2 3).1 (by decide),
   (send_at_command_single_timed_read [(1, "OK"), (2, "X")] "AT" "LATE" 9 3).2
     (by decide)⟩

/-! ## Message processing pipeline — `src/src/sms/modem.py:486-570` and
`src/src/sms/sms_manager.py:9-65`

Side effects are recorded as an explicit command trace: device deletes
(`AT+CMGD=<index>`, one entry per attempt) and admin notifications. The
serial delete outcome is an oracle `ok : Nat → Bool` over attempt numbers. -/

/-- One observable side effect of message processing. -/
inductive Cmd
  | deleteSms (index : Nat)
  | notifyAdmins (sender content : String)
deriving DecidableEq, Repr

/-- Python exception-or-value result. -/
inductive PyOutcome (α : Type)
  | ok (a : α)
  | exc (e : String)
deriving DecidableEq, Repr

/-- `s.endswith(suf)`. -/
def strEndsWith (s suf : String) : Bool :=
  decide (suf.toList <:+ s.toList)

/-- `s.startswith(pre)`. -/
def strStartsWith (s p : String) : Bool :=
  decide (p.toList <+: s.toList)

/-- `content.strip().endswith(('.', '!', '?', ':', ';'))`. -/
def endsWithPunct (s : String) : Bool :=
  strEndsWith s "." || strEndsWith s "!" || strEndsWith s "?" ||
    strEndsWith s ":" || strEndsWith s ";"

/-- `is_message_fragment` (modem.py:1226-1238): the disjunction of the five
fragment indicators. -/
def is_message_fragment (content : String) : Bool :=
  strEndsWith content "..." ||
  strStartsWith content "..." ||
  (decide (content.length < 20) && ! content.toList.any Char.isDigit) ||
  (pyStrip content == "....") || (pyStrip content == "...") ||
    (pyStrip content == "..") ||
  (! endsWithPunct (pyStrip content) && decide (content.length > 30))

/-- `delete_sms` with retry (modem.py:456-484, sms_manager.py:9-26): issue
`AT+CMGD=<index>` up to `remaining` times, stopping at the first attempt the
oracle reports successful; the trace records every attempt actually made. -/
def delete_sms_with_retry (ok : Nat → Bool) (index : Nat) :
    Nat → Nat → Bool × List Cmd
  | _, 0 => (false, [])
  | attempt, n + 1 =>
    if ok attempt then (true, [Cmd.deleteSms index])
    else
      let r := delete_sms_with_retry ok index (attempt + 1) n
      (r.1, Cmd.deleteSms index :: r.2)

/-- The call `save_sms(status, sender, timestamp, content,
force_save=force_save)` (modem.py:527 and sms_manager.py:49). `save_sms`
(db.py:102) declares exactly the four positional parameters
`(status, sender, timestamp, content)` and no `**kwargs`, so Python raises
`TypeError: save_sms() got an unexpected keyword argument 'force_save'`
before the function body executes: no row is ever inserted by this call. -/
def call_save_sms_with_force_save (now : String) (db : Db)
    (status sender timestamp content : String) (force_save : Bool) :
    PyOutcome (Option Nat × Db) :=
  let _ := (now, db, status, sender, timestamp, content, force_save)
  .exc "TypeError"

/-- `process_message` (modem.py:486-570). Empty content or sender: keep the
message on the device and return False. Already stored and not forced:
notify the admins for non-fragments and return True with no delete
(modem.py:520-525 issues no `AT+CMGD`). Otherwise the save call raises
`TypeError` (see `call_save_sms_with_force_save`), the function-level
`except` catches it and returns False; the save-success body (notify,
`delete_sms_with_retry`, second notify) is modelled but unreachable. -/
def process_message (ok : Nat → Bool) (now : String) (db : Db) (index : Nat)
    (status sender date_time content : String) (force_save : Bool) :
    Bool × Db × List Cmd :=
  let _ := status
  if content = "" ∨ sender = "" then (false, db, [])
  else if message_exists db sender content && ! force_save then
    if is_message_fragment content then (true, db, [])
    else (true, db, [Cmd.notifyAdmins sender content])
  else
    match call_save_sms_with_force_save now db status sender date_time content
        force_save with
    | .ok (some _, db2) =>
      let del := delete_sms_with_retry ok index 0 3
      (true, db2,
        Cmd.notifyAdmins sender content :: del.2 ++
          (if is_message_fragment content then []
           else [Cmd.notifyAdmins sender content]))
    | .ok (none, db2) => (false, db2, [])
    | .exc _ => (false, db, [])

/-- `process_and_delete_message` (sms_manager.py:28-65). Empty content or
sender: False. Already stored and not forced: notify for non-fragments,
delete from the SIM (it is already persisted), return True. Otherwise the
save call raises `TypeError`, caught by the `except`: False, nothing
inserted, nothing deleted; the save-success body is modelled but
unreachable. -/
def process_and_delete_message (ok : Nat → Bool) (now : String) (db : Db)
    (index : Nat) (status sender timestamp content : String)
    (force_save : Bool) : Bool × Db × List Cmd :=
  let _ := status
  if content = "" ∨ sender = "" then (false, db, [])
  else if message_exists db sender content && ! force_save then
    let del := delete_sms_with_retry ok index 0 3
    (true, db,
      (if is_message_fragment content then []
       else [Cmd.notifyAdmins sender content]) ++ del.2)
  else
    match call_save_sms_with_force_save now db status sender timestamp content
        force_save with
    | .ok (some _, db2) =>
      let del := delete_sms_with_retry ok index 0 3
      (true, db2,
        (if is_message_fragment content then []
         else [Cmd.notifyAdmins sender content]) ++ del.2)
    | .ok (none, db2) => (false, db2, [])
    | .exc _ => (false, db, [])

/-- **C2.** In both processing functions, a device-delete command appears in
the trace only when the message's (sender, content) pair is already durably
present in the store at the time of the call: a delete is issued only for a
confirmed already-persisted duplicate (and the save path, which would delete
after a successful store, issues none because the store call never
succeeds). -/
theorem delete_only_after_persisted (ok : Nat → Bool) (now : String) (db : Db)
    (index idx : Nat) (status sender date_time content : String)
    (force_save : Bool) :
    (Cmd.deleteSms idx ∈
        (process_message ok now db index status sender date_time content
          force_save).2.2 →
      message_exists db sender content = true) ∧
    (Cmd.deleteSms idx ∈
        (process_and_delete_message ok now db index status sender date_time
          content force_save).2.2 →
      message_exists db sender content = true) := by
  constructor
  · intro hmem
    by_cases h1 : content = "" ∨ sender = ""
    · simp [process_message, h1] at hmem
    · by_cases h2 : (message_exists db sender content && ! force_save) = true
      · exact (Bool.and_eq_true _ _ |>.mp h2).1
      · simp [process_message, h1, h2, call_save_sms_with_force_save] at hmem
  · intro hmem
    by_cases h1 : content = "" ∨ sender = ""
    · simp [process_and_delete_message, h1] at hmem
    · by_cases h2 : (message_exists db sender content && ! force_save) = true
      · exact (Bool.and_eq_true _ _ |>.mp h2).1
      · simp [process_and_delete_message, h1, h2,
          call_save_sms_with_force_save] at hmem

theorem delete_only_after_persisted_witness :
    Cmd.deleteSms 1 ∈
      (process_and_delete_message (fun _ => true) "N"
        [⟨"+213555", none, "hello"⟩] 1 "REC" "+213555" "t" "hello" false).2.2 ∧
    message_exists [⟨"+213555", none, "hello"⟩] "+213555" "hello" = true :=
  ⟨by decide,
   (delete_only_after_persisted (fun _ => true) "N" [⟨"+213555", none, "hello"⟩]
     1 1 "REC" "+213555" "t" "hello" false).2 (by decide)⟩

/-- **C7.** A message whose decoding produced empty content or an empty
sender makes both processing functions report failure (return False) with an
empty command trace — in particular no `AT+CMGD` — and an unchanged store:
the raw message stays on the device for manual review. -/
theorem decode_failure_keeps_message (ok : Nat → Bool) (now : String)
    (db : Db) (index : Nat) (status sender date_time content : String)
    (force_save : Bool) (h : content = "" ∨ sender = "") :
    process_message ok now db index status sender date_time content
        force_save = (false, db, []) ∧
    process_and_delete_message ok now db index status sender date_time content
        force_save = (false, db, []) := by
  constructor
  · simp [process_message, h]
  · simp [process_and_delete_message, h]

theorem decode_failure_keeps_message_witness :
    process_message (fun _ => true) "N" [] 2 "REC UNREAD" "+213555" "t" ""
        true = (false, [], []) ∧
    process_and_delete_message (fun _ => true) "N" [] 2 "REC UNREAD" "+213555"
        "t" "" true = (false, [], []) :=
  decode_failure_keeps_message (fun _ => true) "N" [] 2 "REC UNREAD" "+213555"
    "t" "" true (Or.inl rfl)

/-- **C9.** Every call that reaches the save branch of either processing
function (non-empty sender and content, and the pair not already stored or
`force_save` set) hits the `TypeError` from the extra `force_save` keyword
argument; the surrounding handler returns False, the store is unchanged (no
record inserted) and the command trace is empty (no device delete issued). -/
theorem save_call_type_error_no_insert_no_delete (ok : Nat → Bool)
    (now : String) (db : Db) (index : Nat)
    (status sender date_time content : String) (force_save : Bool)
    (h1 : ¬ (content = "" ∨ sender = ""))
    (h2 : message_exists db sender content = false ∨ force_save = true) :
    process_message ok now db index status sender date_time content
        force_save = (false, db, []) ∧
    process_and_delete_message ok now db index status sender date_time content
        force_save = (false, db, []) := by
  have h3 : (message_exists db sender content && ! force_save) = false := by
    rcases h2 with h | h <;> simp [h]
  constructor
  · simp [process_message, h1, h3, call_save_sms_with_force_save]
  · simp [process_and_delete_message, h1, h3, call_save_sms_with_force_save]

theorem save_call_type_error_no_insert_no_delete_witness :
    process_message (fun _ => true) "N" [] 3 "REC UNREAD" "+213555" "t"
        "hello" false = (false, [], []) ∧
    process_and_delete_message (fun _ => true) "N" [] 3 "REC UNREAD" "+213555"
        "t" "hello" false = (false, [], []) :=
  save_call_type_error_no_insert_no_delete (fun _ => true) "N" [] 3
    "REC UNREAD" "+213555" "t" "hello" false (by decide) (Or.inl (by decide))

/-! ## Modem initialization — `src/src/sms/modem.py:716-804`

The serial side is a stream of responses consumed in command order, one per
`send_at_command` call; an exhausted stream reads as `""` (the timeout
result). -/

/-- Consume one response from the stream. -/
def takeResp : List String → String × List String
  | [] => ("", [])
  | r :: rs => (r, rs)

/-- Steps 1–3 of `init_modem` (modem.py:716-783): `ATZ` and `ATE1`
(responses ignored), the `AT` probe (fatal when its response lacks `OK`),
mode determination per `preferred_mode` (`AUTO` probes `AT+CMGF=1` and
`AT+CMGF?`; otherwise the preference is taken as-is), then the essential
configuration commands, whose responses are only logged as warnings — 7
commands in TEXT mode, 4 in PDU mode. Returns the chosen mode and the
remaining stream. -/
def init_modem_pre (resps : List String) (preferred : String) :
    PyOutcome (String × List String) :=
  let s1 := (takeResp resps).2
  let s2 := (takeResp s1).2
  let rAT := (takeResp s2).1
  let s3 := (takeResp s2).2
  if strContains rAT "OK" = false then .exc "Modem not responding"
  else
    let ms : String × List String :=
      if preferred = "AUTO" then
        let tresp := (takeResp s3).1
        let sa := (takeResp s3).2
        if strContains tresp "OK" then
          let qresp := (takeResp sa).1
          let sb := (takeResp sa).2
          if strContains qresp "1" then ("TEXT", sb) else ("PDU", sb)
        else ("PDU", sa)
      else if preferred = "TEXT" then ("TEXT", s3)
      else ("PDU", s3)
    .ok (ms.1, ms.2.drop (if ms.1 = "TEXT" then 7 else 4))

/-- `init_modem` (modem.py:716-804): after configuration, step 4 re-queries
`AT+CMGF?` and raises `Failed to set SMS <mode> mode` — fatal for this
connection attempt; `listen_for_sms` catches it and reconnects — exactly
when the response does not contain the expected substring (`"1"` for TEXT,
`"0"` for PDU). On a match, step 5 reads `AT+CPMS?` (logged only), the
confirmed mode is stored in the global `SMS_MODE` for the session (modelled
as the returned value) and initialization completes. -/
def init_modem (resps : List String) (preferred : String) : PyOutcome String :=
  match init_modem_pre resps preferred with
  | .exc e => .exc e
  | .ok ms =>
    let vresp := (takeResp ms.2).1
    let expected := if ms.1 = "TEXT" then "1" else "0"
    if strContains vresp expected = false then .exc "Failed to set SMS mode"
    else .ok ms.1

/-- **C8.** Whenever initialization reaches the verification step (steps 1–3
succeeded, choosing `mode` and leaving stream `s5`), the connection attempt
completes — recording `mode` for the session — exactly when the re-queried
`AT+CMGF?` response contains the requested mode's value (`"1"` for TEXT,
`"0"` for PDU); any other response makes `init_modem` raise, which triggers
reconnection. -/
theorem init_modem_verifies_mode (resps : List String) (preferred mode : String)
    (s5 : List String) (h : init_modem_pre resps preferred = .ok (mode, s5)) :
    (init_modem resps preferred = .ok mode ↔
      strContains (takeResp s5).1 (if mode = "TEXT" then "1" else "0") = true) ∧
    (strContains (takeResp s5).1 (if mode = "TEXT" then "1" else "0") = false →
      init_modem resps preferred = .exc "Failed to set SMS mode") := by
  cases hv : strContains (takeResp s5).1 (if mode = "TEXT" then "1" else "0") with
  | true =>
    constructor
    · simp [init_modem, h, hv]
    · intro hf
      simp [hv] at hf
  | false =>
    constructor
    · simp [init_modem, h, hv]
    · intro hf
      simp [init_modem, h, hv]

theorem init_modem_verifies_mode_witness :
    init_modem ["", "", "OK", "a", "b", "c", "d", "e", "f", "g", "+CMGF: 1", "s"]
      "TEXT" = .ok "TEXT" :=
  ((init_modem_verifies_mode
    ["", "", "OK", "a", "b", "c", "d", "e", "f", "g", "+CMGF: 1", "s"]
    "TEXT" "TEXT" ["+CMGF: 1", "s"] (by decide)).1).mpr (by decide)

end ModemZTE
